import Mathlib

/-!
Shallow embedding of the Discord gateway client in `src/gateway.py`.

Conventions:
- Decoded JSON values are modelled by `JVal`; Python dicts (both JSON objects
  and the module-level registries) are insertion-ordered association lists
  with Python assignment semantics (`pySet`).
- Python coroutines that a caller fails to `await` are modelled as data
  (`PendingCoroutine`), since creating a coroutine object has no effect.
- Exceptions that the gateway code can raise while subscripting decoded JSON
  (`KeyError`, `TypeError`, `AttributeError`) are modelled by `Except PyError`.
-/

namespace Gateway

/-- A decoded JSON value (the result of `json.loads`). Arrays are not needed
by any gateway code path modelled here. -/
inductive JVal where
  | null
  | bool (b : Bool)
  | num (n : Int)
  | str (s : String)
  | obj (fields : List (String × JVal))

/-- Identity of a parser function. `_default_parser` is a single module-level
function object, so the source's `callbacks[1] is _default_parser` identity
test is modelled as equality with the `defaultParser` constructor; every other
parser object is identified by an id string. -/
inductive Parser where
  | defaultParser
  | userParser (id : String)
deriving DecidableEq, Repr

/-- Identity of a callback function, analogous to `Parser`:
`_dummy_callback` is the module-level do-nothing function. -/
inductive Callback where
  | dummyCallback
  | userCallback (id : String)
deriving DecidableEq, Repr

/-- Python dict lookup (`d.get(k)` / `k in d`). -/
def pyGet (k : String) : List (String × α) → Option α
  | [] => none
  | (k', v) :: rest => if k' = k then some v else pyGet k rest

/-- Python dict assignment `d[k] = v`: overwrite in place if the key exists
(keeping insertion order), otherwise append. -/
def pySet (k : String) (v : α) : List (String × α) → List (String × α)
  | [] => [(k, v)]
  | (k', v') :: rest => if k' = k then (k, v) :: rest else (k', v') :: pySet k v rest

/-- Python `==` between a decoded JSON value and an int literal
(`opc == opcode.DISPATCH`, `session_code == opcode.RECONNECT`, ...).
Python's `bool` is an int subtype, so `True == 1` holds. -/
def pyEqInt (v : JVal) (n : Int) : Bool :=
  match v with
  | .num m => m == n
  | .bool b => (if b then (1 : Int) else 0) == n
  | _ => false

/-- Python `str.lower()` on the ASCII event names the gateway uses:
lower-case each character. (Defined structurally over the character list so
that concrete lookups evaluate.) -/
def pyLower (s : String) : String := ⟨s.data.map Char.toLower⟩

/-- Exceptions raised by subscripting / attribute access on decoded JSON. -/
inductive PyError where
  | typeError
  | keyError
  | attributeError
deriving DecidableEq, Repr

/-- Python subscript `v[k]` on a decoded JSON value: a key lookup on an
object, `KeyError` when the key is absent, `TypeError` when `v` is not an
object (e.g. `False["session_id"]`). -/
def jget (v : JVal) (k : String) : Except PyError JVal :=
  match v with
  | .obj fields =>
    match pyGet k fields with
    | some x => .ok x
    | none => .error .keyError
  | _ => .error .typeError

/-- One entry of the module-level `__bot_callbacks__` registry: the two
handler tables the decorators build before registration
(src/gateway.py lines 77-83 and 115-121). -/
structure CallbackEntry where
  event_handlers : List (String × (Callback × Parser))
  func_handlers : List (String × (Callback × Parser))
deriving DecidableEq, Repr

/-- The `__bot_callbacks__` registry: alias → pre-registered handler tables. -/
abbrev CallbackRegistry := List (String × CallbackEntry)

/-- The `unhandled_event` decorator (src/gateway.py lines 62-86) applied to a
function `func`: `event_parser` is replaced by the default when `raw` is set;
if the alias has no `__bot_callbacks__` entry yet, a fresh entry is created
whose fallback slot holds `_dummy_callback` (the decorated `func` is only
returned, not stored); otherwise the existing entry's
`func_handlers["unhandled_event_callbacks"]` slot is overwritten with
`(func, event_parser)`. -/
def unhandled_event (bot_alias : String) (eventParser : Parser) (raw : Bool)
    (func : Callback) (cbs : CallbackRegistry) : CallbackRegistry :=
  let ep := if raw then Parser.defaultParser else eventParser
  match pyGet bot_alias cbs with
  | none =>
    pySet bot_alias
      { event_handlers := [("dummy", (Callback.dummyCallback, ep))],
        func_handlers := [("unhandled_event_callbacks", (Callback.dummyCallback, ep))] } cbs
  | some entry =>
    pySet bot_alias
      { entry with
        func_handlers := pySet "unhandled_event_callbacks" (func, ep) entry.func_handlers } cbs

/-- The `event` decorator (src/gateway.py lines 88-124) applied to a function
`func` whose Python `__name__.lower()` is `funcName`: creates or extends the
alias's `__bot_callbacks__` entry with `event_handlers[funcName] = (func, ep)`. -/
def event_decorator (bot_alias : String) (eventParser : Parser) (raw : Bool)
    (funcName : String) (func : Callback) (cbs : CallbackRegistry) : CallbackRegistry :=
  let ep := if raw then Parser.defaultParser else eventParser
  match pyGet bot_alias cbs with
  | none =>
    pySet bot_alias
      { event_handlers := [(pyLower funcName, (func, ep))],
        func_handlers := [("unhandled_event_callbacks", (Callback.dummyCallback, ep))] } cbs
  | some entry =>
    pySet bot_alias
      { entry with
        event_handlers := pySet (pyLower funcName) (func, ep) entry.event_handlers } cbs

/-- Per-bot session state: the dict `register_bot` stores in `__bots__`
(src/gateway.py lines 145-160). The `tasks` handles are runtime objects and
carry no data relevant to the modelled behavior, so they are omitted; every
other key is a field. `session_code`, `session_sequence`, `session_id` and
`ready_info` hold decoded JSON values, since the source stores raw decoded
frame fields into them. -/
structure BotState where
  token : String
  obj_instance : Option String
  session_id : JVal
  session_state : Bool
  session_code : JVal
  session_sequence : JVal
  bot_intents : Int
  hb_info : Nat × Nat
  queue : List JVal
  ready_info : JVal
  func_handlers : List (String × (Callback × Parser))
  event_handlers : List (String × (Callback × Parser))
  eventParser : Option Parser

/-- The `__bots__` registry: alias → session state. -/
abbrev BotRegistry := List (String × BotState)

/-- The dict literal `register_bot` assigns to `__bots__[alias]`
(src/gateway.py lines 145-160), before the `update` on line 161. -/
def fresh_bot_state (token : String) (intents : Int)
    (eventParser : Option Parser) (obj_instance : Option String) : BotState :=
  { token := token
    obj_instance := obj_instance
    session_id := .str ""
    session_state := true
    session_code := .num 0
    session_sequence := .num 0
    bot_intents := intents
    hb_info := (0, 0)
    queue := []
    ready_info := .obj []
    func_handlers := [("unhandled_event_callbacks", (Callback.dummyCallback, Parser.defaultParser))]
    event_handlers := []
    eventParser := eventParser }

/-- Errors `register_bot` can raise: its own `BotRegisterError` for a
duplicate alias (line 142-143), and the `KeyError` from
`__bot_callbacks__[alias]` on line 161 when no decorator ever created an
entry for `alias`. -/
inductive RegError where
  | botRegisterError
  | keyError
deriving DecidableEq, Repr

/-- `register_bot` (src/gateway.py lines 126-161). Returns the registry after
the call together with the raised error, if any. Note that the assignment
`__bots__[alias] = {...}` (line 145) happens before the
`__bots__[alias].update(__bot_callbacks__[alias])` subscript (line 161), so
when that subscript raises `KeyError` a partially initialized state has
already been stored. The `update` overwrites the `event_handlers` and
`func_handlers` keys with the decorator-built tables. -/
def register_bot (token : String) (intents : Int) (aliasName : String)
    (eventParser : Option Parser) (obj_instance : Option String)
    (bots : BotRegistry) (cbs : CallbackRegistry) : BotRegistry × Option RegError :=
  if (pyGet aliasName bots).isSome then
    (bots, some .botRegisterError)
  else
    let st := fresh_bot_state token intents eventParser obj_instance
    let bots1 := pySet aliasName st bots
    match pyGet aliasName cbs with
    | none => (bots1, some .keyError)
    | some entry =>
      (pySet aliasName
        { st with event_handlers := entry.event_handlers,
                  func_handlers := entry.func_handlers } bots1, none)

/-- The keys present in a bot's state dict: exactly those written by
`register_bot` lines 145-160 ("tasks" included), noting that line 161's
`update` only overwrites the already-present "event_handlers" and
"func_handlers" keys and that no later code adds a key. -/
def bot_state_keys : List String :=
  ["token", "obj_instance", "session_id", "session_state", "session_code",
   "session_sequence", "bot_intents", "hb_info", "tasks", "queue",
   "ready_info", "func_handlers", "event_handlers", "event_parser"]

/-- `get_intents` (src/gateway.py lines 218-220) evaluates
`get_bot(bot_alias).get('intents')`. The state dict has no key "intents"
(the registered bitmask is stored under "bot_intents"), so the `.get`
returns `None`; the lookup is modelled against `bot_state_keys`, with the
structure field supplying the value a hit would produce. -/
def get_intents (s : BotState) : Option Int :=
  if "intents" ∈ bot_state_keys then some s.bot_intents else none

/-- Python `x != 0` where `x` is `None` or an int: `None != 0` is `True`. -/
def pyNeZero : Option Int → Bool
  | some n => n != 0
  | none => true

/-- A `None`-or-int value as it appears once serialized into JSON. -/
def optIntToJVal : Option Int → JVal
  | some n => .num n
  | none => .null

/-- The `properties` object of the identify payload (line 293-294). -/
def identify_props : JVal :=
  .obj [("$os", .str "windows"), ("$browser", .str "chrome"), ("$device", .str "pc")]

/-- `_get_identify_payload` (src/gateway.py lines 285-294): the serialized
identify frame, with an `intents` entry exactly when
`get_intents(bot_alias) != 0`. -/
def get_identify_payload (s : BotState) : JVal :=
  if pyNeZero (get_intents s) then
    .obj [("op", .num 2),
          ("d", .obj [("token", .str s.token), ("properties", identify_props),
                      ("intents", optIntToJVal (get_intents s))])]
  else
    .obj [("op", .num 2),
          ("d", .obj [("token", .str s.token), ("properties", identify_props)])]

/-- `_get_resume_payload` (src/gateway.py lines 296-303): the serialized
resume frame carrying the stored session id and sequence. -/
def get_resume_payload (s : BotState) : JVal :=
  .obj [("op", .num 6),
        ("d", .obj [("token", .str s.token), ("session_id", s.session_id),
                    ("seq", s.session_sequence)])]

/-- `parse_json_str` (src/gateway.py lines 194-208): `json.loads` either
decodes the raw text (modelled as `some v`) or raises `JSONDecodeError`
(modelled as `none`), in which case the sentinel `{op: -2, d: False}` is
returned instead. -/
def parse_json_str (raw : Option JVal) : JVal :=
  match raw with
  | some v => v
  | none => .obj [("op", .num (-2)), ("d", .bool false)]

/-- `_parse_heartbeat` (src/gateway.py lines 180-191) on a hello frame whose
`d.heartbeat_interval` is `heartbeatIntervalMs` (a nonnegative count of
milliseconds) and where `_ran_random()` returned `U`:
`interval = int(heartbeat_interval / 1000)` — truncation of a nonnegative
quotient, i.e. floor division — and the jitter value `int(interval * U)`.
Returns `(jitter, interval)` in that order, as the source does. -/
def parse_heartbeat (heartbeatIntervalMs : Nat) (U : ℚ) : Nat × Nat :=
  let interval := heartbeatIntervalMs / 1000
  ((⌊(interval : ℚ) * U⌋).toNat, interval)

/-- `bot_stop` (src/gateway.py lines 305-313): session code becomes the
manual-stop sentinel -1 and the active flag is cleared. -/
def bot_stop (s : BotState) : BotState :=
  { s with session_code := .num (-1), session_state := false }

/-- `bot_restart` (src/gateway.py lines 315-324): session code becomes the
given opcode and the active flag is cleared. -/
def bot_restart (opc : JVal) (s : BotState) : BotState :=
  { s with session_code := opc, session_state := false }

/-- The effect `await queue.put(item)` would have on an `asyncio.Queue`
holding `q`: append the item (FIFO). -/
def queuePut (payload : JVal) (q : List JVal) : List JVal := q ++ [payload]

/-- A coroutine object created by calling an `async def` function without
awaiting it. Creating the object has no effect; `wouldRun` is the queue
transformation that awaiting it would have performed. -/
structure PendingCoroutine where
  wouldRun : List JVal → List JVal

/-- `bot_send` (src/gateway.py lines 326-334): the body is
`get_bot(bot_alias)['queue'].put(payload)` with no `await`. Since
`asyncio.Queue.put` is a coroutine function, the call only creates a
coroutine object, which is immediately discarded; the bot's queue is left
unchanged. Returns the state after the call (unchanged) together with the
discarded coroutine. -/
def bot_send (payload : JVal) (s : BotState) : BotState × PendingCoroutine :=
  (s, ⟨queuePut payload⟩)

/-- `_send_loop` (src/gateway.py lines 433-460): while the session is active,
dequeue one message and transmit it. Modelled up to the point where the queue
is exhausted and the pump blocks on `queue.get()`; returns the transmitted
messages in order. -/
def send_loop (active : Bool) : List JVal → List JVal
  | [] => []
  | m :: rest => if active then m :: send_loop active rest else []

/-- The heartbeat frame `{"op": 1, "d": None}` sent by the receive handler
for a server heartbeat request (line 391). -/
def heartbeatFrame : JVal := .obj [("op", .num 1), ("d", .null)]

/-- The opcode dispatching of `_recv_handler` after the sequence update
(src/gateway.py lines 377-406), on a decoded frame `event`: returns the
frames written to the socket, the (callback, parser, event) invocations
handed to `_event_callback`, and the returned session code (or the raised
exception). Matches the source's `match opc` plus the parser-substitution
block: `op == 0` resolves a named handler via `event['t'].lower()` falling
back to `func_handlers['unhandled_event_callbacks']`, then substitutes the
session's registered parser when the resolved parser is the module-level
default; `op == 1` answers with a heartbeat frame; `op == 11` does nothing;
any other opcode becomes the returned session code. -/
def recv_dispatch (s0 : BotState) (event : List (String × JVal)) :
    List JVal × List (Callback × Parser × List (String × JVal)) × Except PyError JVal :=
  match pyGet "op" event with
  | none => ([], [], .error .keyError)
  | some opv =>
    if pyEqInt opv 0 then
      match pyGet "t" event with
      | none => ([], [], .error .keyError)
      | some (.str tname) =>
        let event_name := pyLower tname
        let resolved : Except PyError (Callback × Parser) :=
          match pyGet event_name s0.event_handlers with
          | some cb => .ok cb
          | none =>
            match pyGet "unhandled_event_callbacks" s0.func_handlers with
            | some cb => .ok cb
            | none => .error .keyError
        match resolved with
        | .error e => ([], [], .error e)
        | .ok cbs =>
          let used :=
            match s0.eventParser with
            | some p => if cbs.2 = Parser.defaultParser then (cbs.1, p) else cbs
            | none => cbs
          ([], [(used.1, used.2, event)], .ok (.num 0))
      | some _ => ([], [], .error .attributeError)
    else if pyEqInt opv 1 then
      ([heartbeatFrame], [], .ok (.num 0))
    else if pyEqInt opv 11 then
      ([], [], .ok (.num 0))
    else
      ([], [], .ok opv)

/-- Result of one `_recv_handler` call: the state (with the sequence field
updated), socket writes, callback invocations, and the returned session code
or raised exception. -/
structure RecvOutcome where
  state : BotState
  wsSent : List JVal
  calls : List (Callback × Parser × List (String × JVal))
  code : Except PyError JVal

/-- `_recv_handler` (src/gateway.py lines 364-406) on a decoded frame
(a JSON object, given as its field list): first
`_set_sequence(event['s'] if 's' in event else 'null')` — the sequence is
overwritten with the frame's `s` value when the key is present (even when its
value is JSON null), and with the string `'null'` otherwise — then the opcode
dispatch of `recv_dispatch`. No other session-state field is written. -/
def recv_handler (s : BotState) (event : List (String × JVal)) : RecvOutcome :=
  let seqv := (pyGet "s" event).getD (.str "null")
  let s0 := { s with session_sequence := seqv }
  let r := recv_dispatch s0 event
  { state := s0, wsSent := r.1, calls := r.2.1, code := r.2.2 }

/-- The state evolution produced by feeding a list of decoded frames through
`_recv_handler` one after the other, as `_recv_loop` (lines 409-431) does for
frames that keep the session alive. -/
def process_frames (s : BotState) (frames : List (List (String × JVal))) : BotState :=
  frames.foldl (fun st f => (recv_handler st f).state) s

/-- Result of `_init_session`: the payload written to the socket (resume or
identify), the state after the call, and the returned session code or the
exception raised while extracting fields from the reply. -/
structure InitOutcome where
  sent : JVal
  state : BotState
  code : Except PyError JVal

/-- `_init_session` (src/gateway.py lines 519-541) with the hello frame's
`d.heartbeat_interval` equal to `hbMs`, `_ran_random()` returning `U`, and
the raw reply to the identify/resume send decoding to `replyRaw` (`none` for
undecodable text). Steps, in source order: store the parsed heartbeat info;
if the stored session code equals the reconnect opcode 7, send the resume
payload and decode one reply (`_resume`, lines 486-499); otherwise send the
identify payload, decode one reply, store it as ready info (`_identify`,
lines 501-516), then store `resp['d']['session_id']` — which raises when the
reply is the decode-failure sentinel, whose `d` is `False`; finally store
`resp['op']` as the session code and return it. -/
def init_session (s : BotState) (hbMs : Nat) (U : ℚ) (replyRaw : Option JVal) :
    InitOutcome :=
  let s1 := { s with hb_info := parse_heartbeat hbMs U }
  if pyEqInt s1.session_code 7 then
    let sent := get_resume_payload s1
    let resp := parse_json_str replyRaw
    match jget resp "op" with
    | .error e => { sent := sent, state := s1, code := .error e }
    | .ok opv => { sent := sent, state := { s1 with session_code := opv }, code := .ok opv }
  else
    let sent := get_identify_payload s1
    let resp := parse_json_str replyRaw
    let s2 := { s1 with ready_info := resp }
    match (jget resp "d").bind (fun d => jget d "session_id") with
    | .error e => { sent := sent, state := s2, code := .error e }
    | .ok sid =>
      let s3 := { s2 with session_id := sid }
      match jget resp "op" with
      | .error e => { sent := sent, state := s3, code := .error e }
      | .ok opv => { sent := sent, state := { s3 with session_code := opv }, code := .ok opv }

/-- Result of `init_connection` up to the point where the pumps are started
(or not): the handshake payload sent, the session state, whether the three
pump tasks were created, and the exception that escaped, if any. -/
structure ConnOutcome where
  sent : JVal
  state : BotState
  pumpsStarted : Bool
  raised : Option PyError

/-- `init_connection` (src/gateway.py lines 543-568): run `_init_session`;
if it raises, the `async with` closes the socket and the exception escapes
with no pump started; otherwise the three pump tasks are created exactly when
the returned session code differs from the invalid-session opcode 9. -/
def init_connection (s : BotState) (hbMs : Nat) (U : ℚ) (replyRaw : Option JVal) :
    ConnOutcome :=
  let o := init_session s hbMs U replyRaw
  match o.code with
  | .error e => { sent := o.sent, state := o.state, pumpsStarted := false, raised := some e }
  | .ok codeV =>
    { sent := o.sent, state := o.state, pumpsStarted := !(pyEqInt codeV 9), raised := none }

/-- What the supervisor loop decides to do after a connection ends. -/
inductive SupervisorAction where
  | retryAfterCooldown (seconds : Nat)
  | retryImmediately
  | stop
deriving DecidableEq, Repr

/-- One turn of the outer loop of `bot` (src/gateway.py lines 571-599) after
`init_connection` has returned or raised a `ConnectionClosed`: read the
session code, set the active flag back to true, then branch — invalid
session (9) sleeps 7 seconds and retries, reconnect (7) retries immediately,
anything else breaks out of the loop. -/
def bot_step (s : BotState) : BotState × SupervisorAction :=
  let code := s.session_code
  let s1 := { s with session_state := true }
  if pyEqInt code 9 then (s1, .retryAfterCooldown 7)
  else if pyEqInt code 7 then (s1, .retryImmediately)
  else (s1, .stop)

/-! Concrete sessions and frames used to instantiate the theorems below. -/

/-- A session whose stored code is the reconnect opcode, as left behind by a
server-initiated reconnect: the next handshake takes the resume path. -/
def resume_ready_state : BotState :=
  { fresh_bot_state "t" 0 none none with session_code := JVal.num 7 }

/-- A session whose stored code is 0: the next handshake takes the identify
path. -/
def identify_ready_state : BotState := fresh_bot_state "t" 0 none none

/-- A well-formed ready reply to an identify request. -/
def ready_reply : JVal :=
  .obj [("op", .num 0), ("s", .num 1), ("t", .str "READY"),
        ("d", .obj [("session_id", .str "sid123")])]

/-- A session registered with a session-wide parser and one named handler. -/
def parser_sub_state : BotState :=
  { fresh_bot_state "t" 0 (some (Parser.userParser "sessionWide")) none with
      event_handlers :=
        [("message_create", (Callback.userCallback "onMessage", Parser.defaultParser))] }

/-- A dispatch frame for an event name with no registered handler. -/
def guild_create_frame : List (String × JVal) :=
  [("op", .num 0), ("s", .num 1), ("t", .str "GUILD_CREATE"), ("d", .obj [])]

/-- A dispatch frame carrying sequence number 5. -/
def dispatch_seq5 : List (String × JVal) :=
  [("op", .num 0), ("t", .str "MESSAGE_CREATE"), ("s", .num 5), ("d", .obj [])]

/-- A dispatch frame carrying sequence number 3. -/
def dispatch_seq3 : List (String × JVal) :=
  [("op", .num 0), ("t", .str "MESSAGE_CREATE"), ("s", .num 3), ("d", .obj [])]

/-- A heartbeat-ack frame with no `s` key, as the server sends between
dispatches. -/
def ack_frame : List (String × JVal) := [("op", .num 11), ("d", .null)]

/-! Helper lemmas. -/

/-- Looking up a key just assigned with Python dict semantics yields the
assigned value. -/
theorem pyGet_pySet_self (k : String) (v : α) (m : List (String × α)) :
    pyGet k (pySet k v m) = some v := by
  induction m with
  | nil => simp [pyGet, pySet]
  | cons kv rest ih =>
    obtain ⟨k', v'⟩ := kv
    by_cases h : k' = k <;> simp [pyGet, pySet, h, ih]

/-- The receive handler writes exactly the sequence field: its state is the
input state with `session_sequence` overwritten by the frame's `s` value, or
the string sentinel when the key is absent. -/
theorem recv_handler_state (s : BotState) (event : List (String × JVal)) :
    (recv_handler s event).state =
      { s with session_sequence := (pyGet "s" event).getD (.str "null") } := rfl

/-- Processing one more frame is one more receive-handler step. -/
theorem process_frames_append (s : BotState) (fs : List (List (String × JVal)))
    (f : List (String × JVal)) :
    process_frames s (fs ++ [f]) = (recv_handler (process_frames s fs) f).state := by
  simp [process_frames, List.foldl_append]

/-- An active send pump drains the queue in FIFO order. -/
theorem send_loop_fifo (q : List JVal) : send_loop true q = q := by
  induction q with
  | nil => rfl
  | cons m rest ih => simp [send_loop, ih]

/-! Claim theorems. -/

/-- C1: the claim says `bot_send` appends the payload to the session's
outbound queue and that the send pump then transmits the enqueued payloads in
order. The code calls `queue.put(payload)` without `await` (line 334);
`asyncio.Queue.put` is a coroutine function, so the call only creates a
coroutine object that is discarded unawaited and the queue is never modified:
after three `bot_send` calls on a freshly registered session the queue is
still empty and the send pump transmits nothing, while awaiting the discarded
coroutine would have appended the payload. -/
theorem c1_bot_send_never_enqueues :
    ((bot_send (.str "p3") ((bot_send (.str "p2") ((bot_send (.str "p1")
        identify_ready_state).1)).1)).1).queue = [] ∧
    send_loop
      ((bot_send (.str "p3") ((bot_send (.str "p2") ((bot_send (.str "p1")
        identify_ready_state).1)).1)).1).session_state
      ((bot_send (.str "p3") ((bot_send (.str "p2") ((bot_send (.str "p1")
        identify_ready_state).1)).1)).1).queue = [] ∧
    (bot_send (.str "p1") identify_ready_state).2.wouldRun
        identify_ready_state.queue = [JVal.str "p1"] :=
  ⟨rfl, rfl, rfl⟩

/-- C2: the claim says the identify payload omits `intents` exactly when the
registered intents value is zero and otherwise carries that value. In the
code, `get_intents` reads the dict key "intents" while `register_bot` stores
the bitmask under "bot_intents", so `get_intents` always returns `None`;
`None != 0` is true, so the payload always carries `"intents": null` — it is
present for a session registered with intents 0, and it is `null` rather
than 512 for a session registered with intents 512. -/
theorem c2_identify_intents_always_null :
    get_intents (fresh_bot_state "t" 512 none none) = none ∧
    ((jget (get_identify_payload (fresh_bot_state "t" 0 none none)) "d").bind
        (fun d => jget d "intents") = .ok JVal.null) ∧
    ((jget (get_identify_payload (fresh_bot_state "t" 512 none none)) "d").bind
        (fun d => jget d "intents") = .ok JVal.null) :=
  ⟨rfl, rfl, rfl⟩

/-- C7: the claim says registration fails exactly when the alias is already
registered, and that registering a fresh alias succeeds. On a fresh alias
with no decorator-created `__bot_callbacks__` entry, the subscript
`__bot_callbacks__[alias]` on line 161 raises `KeyError` — after the partial
state from line 145 has already been stored in `__bots__`. -/
theorem c7_register_fresh_alias_keyerror :
    register_bot "t" 0 "a" none none [] [] =
      ([("a", fresh_bot_state "t" 0 none none)], some RegError.keyError) := rfl

/-- C3 counterexample: the claim says that for every handshake with an
undecodable reply the connection is aborted without starting any pump. At the
concrete session `resume_ready_state` (session code 7, so the handshake takes
the resume path) with an undecodable reply, the reply is normalized to the
sentinel `{op: -2, d: false}`, yet `init_connection` starts the three pumps,
because it only skips them for session code 9. -/
theorem c3_counterexample :
    parse_json_str none = JVal.obj [("op", JVal.num (-2)), ("d", JVal.bool false)] ∧
    pyEqInt resume_ready_state.session_code 7 = true ∧
    (init_connection resume_ready_state 41250 0 none).pumpsStarted = true :=
  ⟨rfl, rfl, rfl⟩

/-- C3 amended: an undecodable identify/resume reply is represented as the
sentinel `{op: -2, d: false}`, and then (a) in the resume path the sentinel's
opcode -2 becomes the session code and `init_connection` starts all three
pumps, since it aborts only for the invalid-session opcode 9; (b) in the
identify path, extracting `session_id` from the sentinel's `d = false`
raises a `TypeError`, so no pump is started, but the failure escapes as an
exception rather than as a session code. -/
theorem c3_undecodable_reply_behavior (s : BotState) (hb : Nat) (U : ℚ) :
    (pyEqInt s.session_code 7 = true →
      (init_session s hb U none).code = .ok (JVal.num (-2)) ∧
      (init_connection s hb U none).pumpsStarted = true) ∧
    (pyEqInt s.session_code 7 = false →
      (init_connection s hb U none).raised = some PyError.typeError ∧
      (init_connection s hb U none).pumpsStarted = false) := by
  constructor
  · intro h
    simp only [init_session, init_connection, h]
    exact ⟨rfl, rfl⟩
  · intro h
    simp only [init_session, init_connection, h]
    exact ⟨rfl, rfl⟩

/-- C3 witness: both branches of `c3_undecodable_reply_behavior`
instantiated at concrete sessions. -/
theorem c3_witness :
    (pyEqInt resume_ready_state.session_code 7 = true ∧
      (init_session resume_ready_state 41250 0 none).code = .ok (JVal.num (-2))) ∧
    (pyEqInt identify_ready_state.session_code 7 = false ∧
      (init_connection identify_ready_state 41250 0 none).raised
        = some PyError.typeError) :=
  ⟨⟨rfl, ((c3_undecodable_reply_behavior resume_ready_state 41250 0).1 rfl).1⟩,
   ⟨rfl, ((c3_undecodable_reply_behavior identify_ready_state 41250 0).2 rfl).1⟩⟩

/-- C4: after a connection ends, the supervisor turn of `bot` sets the active
flag back to true and leaves every other field unchanged; it sleeps the fixed
7-second cooldown and retries exactly when the session code equals the
invalid-session opcode 9, retries immediately exactly when it equals the
reconnect opcode 7, and otherwise — in particular after `bot_stop` set the
manual-stop sentinel -1 — stops the outer loop permanently. -/
theorem c4_supervisor_branching (s : BotState) :
    (bot_step s).1 = { s with session_state := true } ∧
    ((bot_step s).2 = .retryAfterCooldown 7 ↔ pyEqInt s.session_code 9 = true) ∧
    ((bot_step s).2 = .retryImmediately ↔
      (pyEqInt s.session_code 9 = false ∧ pyEqInt s.session_code 7 = true)) ∧
    ((bot_step s).2 = .stop ↔
      (pyEqInt s.session_code 9 = false ∧ pyEqInt s.session_code 7 = false)) ∧
    (bot_step (bot_stop s)).2 = .stop := by
  refine ⟨?_, ?_, ?_, ?_, rfl⟩ <;>
    rcases h9 : pyEqInt s.session_code 9 <;> rcases h7 : pyEqInt s.session_code 7 <;>
      simp [bot_step, h9, h7]

/-- C5: for a well-formed reply `r` (outer opcode `n`, payload `d` carrying a
`session_id`), the handshake sends a resume request if and only if the stored
session code equals the reconnect opcode 7; the resume payload is
`{op:6, d:{token, session_id, seq}}` built from the token, session id and
sequence currently stored, and the stored session id is preserved; otherwise
an identify request (opcode 2) is sent whose payload carries no `session_id`
key, and the reply's session id is extracted and stored; in both cases the
session code is set to the reply's outer opcode. -/
theorem c5_handshake_resume_vs_identify (s : BotState) (hb : Nat) (U : ℚ)
    (r d sid : JVal) (n : Int)
    (hop : jget r "op" = .ok (.num n))
    (hd : jget r "d" = .ok d)
    (hsid : jget d "session_id" = .ok sid) :
    ((jget (init_session s hb U (some r)).sent "op" = Except.ok (JVal.num 6)) ↔
        pyEqInt s.session_code 7 = true) ∧
    (pyEqInt s.session_code 7 = true →
      (init_session s hb U (some r)).sent =
        JVal.obj [("op", JVal.num 6),
          ("d", JVal.obj [("token", JVal.str s.token), ("session_id", s.session_id),
                          ("seq", s.session_sequence)])] ∧
      (init_session s hb U (some r)).state.session_id = s.session_id) ∧
    (pyEqInt s.session_code 7 = false →
      (jget (init_session s hb U (some r)).sent "op" = Except.ok (JVal.num 2)) ∧
      ((jget (init_session s hb U (some r)).sent "d").bind
          (fun dd => jget dd "session_id") = Except.error PyError.keyError) ∧
      (init_session s hb U (some r)).state.session_id = sid) ∧
    (init_session s hb U (some r)).state.session_code = JVal.num n ∧
    (init_session s hb U (some r)).code = Except.ok (JVal.num n) := by
  rcases h7 : pyEqInt s.session_code 7
  · simp only [init_session, parse_json_str, h7]
    rw [hd, hop]
    simp only [Except.bind, hsid]
    refine ⟨?_, ?_, ?_, rfl, rfl⟩
    · constructor
      · intro hcontra
        exfalso
        rcases hpay : pyNeZero (get_intents { s with hb_info := parse_heartbeat hb U }) <;>
          simp [get_identify_payload, hpay, jget, pyGet] at hcontra
      · intro hcontra; exact absurd hcontra (by simp)
    · intro hcontra; exact absurd hcontra (by simp)
    · intro _
      rcases hpay : pyNeZero (get_intents { s with hb_info := parse_heartbeat hb U }) <;>
        simp [get_identify_payload, hpay, jget, pyGet]
  · simp only [init_session, parse_json_str, h7]
    rw [hop]
    refine ⟨?_, ?_, ?_, rfl, rfl⟩
    · simp [get_resume_payload, jget, pyGet]
    · intro _
      exact ⟨rfl, rfl⟩
    · intro hcontra; exact absurd hcontra (by simp)

/-- C5 witness: the identify path at a concrete fresh session and a concrete
ready reply — the reply's session id is stored and the session code becomes
the reply's opcode. -/
theorem c5_witness :
    pyEqInt identify_ready_state.session_code 7 = false ∧
    (init_session identify_ready_state 41250 0 (some ready_reply)).state.session_id
      = JVal.str "sid123" ∧
    (init_session identify_ready_state 41250 0 (some ready_reply)).code
      = Except.ok (JVal.num 0) :=
  ⟨rfl,
   ((c5_handshake_resume_vs_identify identify_ready_state 41250 0 ready_reply
      (JVal.obj [("session_id", JVal.str "sid123")]) (JVal.str "sid123") 0
      rfl rfl rfl).2.2.1 rfl).2.2,
   (c5_handshake_resume_vs_identify identify_ready_state 41250 0 ready_reply
      (JVal.obj [("session_id", JVal.str "sid123")]) (JVal.str "sid123") 0
      rfl rfl rfl).2.2.2.2⟩

/-- C6: the plain heartbeat interval derived from a hello frame is the floor
of the millisecond interval divided by 1000, the jitter interval is the floor
of the plain interval scaled by the random draw `U` from [0, 1); for
`heartbeat_interval = 41250` ms the plain interval is 41 and the jitter
interval lies in [0, 41) (it is a natural number below 41). -/
theorem c6_heartbeat_derivation (ms : Nat) (U : ℚ) (h0 : 0 ≤ U) (h1 : U < 1) :
    (parse_heartbeat ms U).2 = ms / 1000 ∧
    (parse_heartbeat ms U).1 = (⌊((ms / 1000 : Nat) : ℚ) * U⌋).toNat ∧
    0 ≤ ⌊((ms / 1000 : Nat) : ℚ) * U⌋ ∧
    (parse_heartbeat 41250 U).2 = 41 ∧
    (parse_heartbeat 41250 U).1 < 41 := by
  refine ⟨rfl, rfl, ?_, rfl, ?_⟩
  · exact Int.floor_nonneg.mpr (mul_nonneg (by positivity) h0)
  · show (⌊((41250 / 1000 : Nat) : ℚ) * U⌋).toNat < 41
    have h41 : ((41250 / 1000 : Nat) : ℚ) = (41 : ℚ) := by norm_num
    rw [h41]
    have hlt : (41 : ℚ) * U < 41 := by nlinarith
    have hfl : ⌊(41 : ℚ) * U⌋ < (41 : ℤ) := Int.floor_lt.mpr (by exact_mod_cast hlt)
    omega

/-- C6 witness: the draw `U = 1/2` is in [0, 1), and at
`heartbeat_interval = 41250` it yields the pair (20, 41). -/
theorem c6_witness :
    (0 : ℚ) ≤ 1/2 ∧ (1/2 : ℚ) < 1 ∧
    (parse_heartbeat 41250 (1/2)).2 = 41 ∧
    (parse_heartbeat 41250 (1/2)).1 < 41 ∧
    parse_heartbeat 41250 (1/2) = (20, 41) :=
  ⟨by norm_num, by norm_num,
   (c6_heartbeat_derivation 41250 (1/2) (by norm_num) (by norm_num)).2.2.2.1,
   (c6_heartbeat_derivation 41250 (1/2) (by norm_num) (by norm_num)).2.2.2.2,
   by norm_num [parse_heartbeat]; rfl⟩

/-- C8: for a dispatch frame (opcode 0) with event-type string `tname`, the
receive handler resolves the (callback, parser) pair to the named entry for
`tname` lower-cased when present in the session's event-handler table and to
the fallback entry otherwise, invokes it exactly once on the frame; the
session's default parser is substituted exactly when the resolved parser is
the identity default parser and a default parser is set, and the stored
handler tables are not mutated. -/
theorem c8_dispatch_resolution (s : BotState) (event : List (String × JVal))
    (opv : JVal) (tname : String) (fb : Callback × Parser)
    (hop : pyGet "op" event = some opv)
    (h0 : pyEqInt opv 0 = true)
    (ht : pyGet "t" event = some (.str tname))
    (hfb : pyGet "unhandled_event_callbacks" s.func_handlers = some fb) :
    ∃ resolved used : Callback × Parser,
      resolved = (pyGet (pyLower tname) s.event_handlers).getD fb ∧
      (recv_handler s event).calls = [(used.1, used.2, event)] ∧
      (∀ p, s.eventParser = some p → resolved.2 = Parser.defaultParser →
        used = (resolved.1, p)) ∧
      ((s.eventParser = none ∨ resolved.2 ≠ Parser.defaultParser) → used = resolved) ∧
      (recv_handler s event).state.event_handlers = s.event_handlers ∧
      (recv_handler s event).state.func_handlers = s.func_handlers ∧
      (recv_handler s event).code = Except.ok (JVal.num 0) := by
  refine ⟨(pyGet (pyLower tname) s.event_handlers).getD fb,
    (match s.eventParser with
     | some p =>
       if ((pyGet (pyLower tname) s.event_handlers).getD fb).2 = Parser.defaultParser
       then (((pyGet (pyLower tname) s.event_handlers).getD fb).1, p)
       else (pyGet (pyLower tname) s.event_handlers).getD fb
     | none => (pyGet (pyLower tname) s.event_handlers).getD fb),
    rfl, ?_, ?_, ?_, rfl, rfl, ?_⟩
  · simp only [recv_handler, recv_dispatch, hop, h0, ht, if_true]
    rcases hn : pyGet (pyLower tname) s.event_handlers with _ | cb <;>
      rcases hp : s.eventParser with _ | p <;>
        simp [hn, hp, hfb]
  · intro p hp hdef
    simp [hp, hdef]
  · intro hor
    rcases hor with hnone | hne
    · simp [hnone]
    · rcases hp : s.eventParser with _ | p
      · simp
      · simp [if_neg hne]
  · simp only [recv_handler, recv_dispatch, hop, h0, ht, if_true]
    rcases hn : pyGet (pyLower tname) s.event_handlers with _ | cb <;>
      rcases hp : s.eventParser with _ | p <;>
        simp [hn, hp, hfb]

/-- C8 witness: dispatching GUILD_CREATE (no registered named handler) on a
session with a session-wide default parser invokes exactly the fallback
callback once, with the session's parser substituted. -/
theorem c8_witness :
    (recv_handler parser_sub_state guild_create_frame).calls =
      [(Callback.dummyCallback, Parser.userParser "sessionWide", guild_create_frame)] := by
  obtain ⟨resolved, used, hres, hcalls, hsub, -, -, -, -⟩ :=
    c8_dispatch_resolution parser_sub_state guild_create_frame (.num 0) "GUILD_CREATE"
      (Callback.dummyCallback, Parser.defaultParser) rfl rfl rfl rfl
  have hr : resolved = (Callback.dummyCallback, Parser.defaultParser) := by
    rw [hres]; rfl
  have hu : used = (Callback.dummyCallback, Parser.userParser "sessionWide") := by
    have h := hsub (Parser.userParser "sessionWide") rfl (by rw [hr])
    rw [h, hr]
  rw [hcalls, hu]

/-- C9 counterexample: the claim says the sequence field never decreases and
holds the sentinel only before the first dispatch. Processing a dispatch
frame with `s = 5` and then one with `s = 3` leaves the stored sequence at 3
(a decrease, since 3 < 5), and processing a dispatch frame followed by a
heartbeat-ack frame without an `s` key puts the sequence back to the string
sentinel "null" after a dispatch has happened. -/
theorem c9_sequence_overwrite_counterexample :
    (process_frames identify_ready_state [dispatch_seq5]).session_sequence
      = JVal.num 5 ∧
    (process_frames identify_ready_state [dispatch_seq5, dispatch_seq3]).session_sequence
      = JVal.num 3 ∧
    (3 : Int) < 5 ∧
    (process_frames identify_ready_state [dispatch_seq5, ack_frame]).session_sequence
      = JVal.str "null" :=
  ⟨rfl, rfl, by decide, rfl⟩

/-- C9 amended: the receive handler overwrites the sequence field on every
frame with the frame's `s` value (or the string sentinel "null" when the key
is absent), so the sequence can decrease and can return to the sentinel after
a dispatch; what does hold is that after processing any run of frames whose
last frame carries an `s` field — in particular a run of dispatch frames with
strictly increasing `s` — the stored sequence equals the last frame's `s`. -/
theorem c9_sequence_equals_last (s : BotState) (pre : List (List (String × JVal)))
    (flast : List (String × JVal)) (v : JVal)
    (hs : pyGet "s" flast = some v) :
    (process_frames s (pre ++ [flast])).session_sequence = v := by
  rw [process_frames_append, recv_handler_state]
  simp [hs]

/-- C9 witness: the strictly increasing run 3, 5 ends with stored sequence 5. -/
theorem c9_witness :
    pyGet "s" dispatch_seq5 = some (JVal.num 5) ∧
    (process_frames identify_ready_state [dispatch_seq3, dispatch_seq5]).session_sequence
      = JVal.num 5 :=
  ⟨rfl, c9_sequence_equals_last identify_ready_state [dispatch_seq3] dispatch_seq5
    (JVal.num 5) rfl⟩

/-- C10: for an alias with no decorator-created entry, the first application
of the `unhandled_event` decorator stores `_dummy_callback` — not the
decorated function — as the alias's fallback callback; a second application
then installs its decorated function as the fallback callback. -/
theorem c10_unhandled_event_two_phase (aliasName : String) (p p2 : Parser)
    (raw raw2 : Bool) (f f2 : Callback) (cbs : CallbackRegistry)
    (h : pyGet aliasName cbs = none) :
    ((pyGet aliasName (unhandled_event aliasName p raw f cbs)).map
        (fun e => pyGet "unhandled_event_callbacks" e.func_handlers))
      = some (some (Callback.dummyCallback, if raw then Parser.defaultParser else p)) ∧
    ((pyGet aliasName (unhandled_event aliasName p2 raw2 f2
          (unhandled_event aliasName p raw f cbs))).map
        (fun e => pyGet "unhandled_event_callbacks" e.func_handlers))
      = some (some (f2, if raw2 then Parser.defaultParser else p2)) := by
  have h1 : unhandled_event aliasName p raw f cbs = pySet aliasName
      { event_handlers :=
          [("dummy", (Callback.dummyCallback, if raw then Parser.defaultParser else p))],
        func_handlers :=
          [("unhandled_event_callbacks",
            (Callback.dummyCallback, if raw then Parser.defaultParser else p))] } cbs := by
    simp [unhandled_event, h]
  constructor
  · rw [h1, pyGet_pySet_self]
    simp [pyGet]
  · rw [h1]
    simp [unhandled_event, pyGet_pySet_self, pySet, pyGet]

/-- C10 witness: both applications at the concrete alias "a" with an empty
callback registry. -/
theorem c10_witness :
    ((pyGet "a" (unhandled_event "a" (Parser.userParser "P") false
          (Callback.userCallback "F") [])).map
        (fun e => pyGet "unhandled_event_callbacks" e.func_handlers))
      = some (some (Callback.dummyCallback, Parser.userParser "P")) ∧
    ((pyGet "a" (unhandled_event "a" (Parser.userParser "P2") false
          (Callback.userCallback "F2")
          (unhandled_event "a" (Parser.userParser "P") false
            (Callback.userCallback "F") []))).map
        (fun e => pyGet "unhandled_event_callbacks" e.func_handlers))
      = some (some (Callback.userCallback "F2", Parser.userParser "P2")) :=
  c10_unhandled_event_two_phase "a" (Parser.userParser "P") (Parser.userParser "P2")
    false false (Callback.userCallback "F") (Callback.userCallback "F2") [] rfl

end Gateway
